import Mathlib

/-
  Verification of the threets geometry/UV utility layer.

  Shallow embedding conventions:
  * JavaScript numbers are modelled as exact rationals (ℚ).  All the properties
    verified here are either structural (list lengths, error branches, registry
    lookups) or hold exactly in IEEE double arithmetic at the inputs used, so the
    exact-arithmetic idealisation is faithful where it matters.  One claim
    (rotatePointsFromPoint) turns on NaN behaviour; for it the scalar type JNum
    (a rational or NaN, with JavaScript-style propagating arithmetic and
    comparisons) is used instead.
  * The transcendental functions of the JavaScript Math library (and the
    constant Math.PI, itself a floating-point rational) are modelled as an
    explicit oracle structure MathLib; the embedded code is a function of the
    oracle, exactly as the compiled code is a client of the math library.
  * TypeScript null/undefined inputs are modelled with Option; code that throws
    is modelled with Except String.
  * three.js (r85) collaborators used by the embedded functions
    (Vector2/Vector3 arithmetic, Matrix4.set/applyMatrix4/applyToBuffer,
    Geometry.clone/applyMatrix) are embedded from their r85 semantics.
    Geometry normals are recomputed deterministically from vertices by the
    library and are never read by any claim, so they are not carried in the
    Geometry record.
-/

/-- Oracle for the JavaScript Math library over exact rationals:
`pi` is the double `Math.PI` (a rational), the functions model
`Math.cos/sin/tan/atan2/sqrt` (doubles in, doubles out). -/
structure MathLib where
  pi : ℚ
  cos : ℚ → ℚ
  sin : ℚ → ℚ
  tan : ℚ → ℚ
  atan2 : ℚ → ℚ → ℚ
  sqrt : ℚ → ℚ

/-- A concrete (degenerate) oracle instance, used only to evaluate
structural theorems on concrete inputs. -/
def mathLibZero : MathLib :=
  ⟨0, fun _ => 0, fun _ => 0, fun _ => 0, fun _ _ => 0, fun _ => 0⟩

/-- THREE.Vector2 (coordinates only). -/
structure GVec2 (α : Type) where
  x : α
  y : α
deriving DecidableEq, Repr

/-- THREE.Vector3 (coordinates only). -/
structure GVec3 (α : Type) where
  x : α
  y : α
  z : α
deriving DecidableEq, Repr

abbrev Vec2 := GVec2 ℚ

abbrev Vec3 := GVec3 ℚ

/-- THREE.Matrix4, with fields named as in `Matrix4.set`
(row-major: `n_rc` is row r, column c). -/
structure Mat4 (α : Type) where
  n11 : α
  n12 : α
  n13 : α
  n14 : α
  n21 : α
  n22 : α
  n23 : α
  n24 : α
  n31 : α
  n32 : α
  n33 : α
  n34 : α
  n41 : α
  n42 : α
  n43 : α
  n44 : α
deriving DecidableEq, Repr

/-- THREE r85 `Vector3.applyMatrix4`: multiply by the 4x4 matrix at w = 1,
then `divideScalar` by the resulting w (which multiplies by `1 / w`). -/
def applyMatrix4 [Add α] [Mul α] [Div α] [OfNat α 1] (m : Mat4 α) (v : GVec3 α) : GVec3 α :=
  let nx := m.n11 * v.x + m.n12 * v.y + m.n13 * v.z + m.n14
  let ny := m.n21 * v.x + m.n22 * v.y + m.n23 * v.z + m.n24
  let nz := m.n31 * v.x + m.n32 * v.y + m.n33 * v.z + m.n34
  let w := m.n41 * v.x + m.n42 * v.y + m.n43 * v.z + m.n44
  let invW : α := 1 / w
  ⟨nx * invW, ny * invW, nz * invW⟩

/-- THREE r85 `Vector3.sub` (componentwise). -/
def vsub [Sub α] (a b : GVec3 α) : GVec3 α := ⟨a.x - b.x, a.y - b.y, a.z - b.z⟩

/-- THREE r85 `Vector3.add` (componentwise). -/
def vadd [Add α] (a b : GVec3 α) : GVec3 α := ⟨a.x + b.x, a.y + b.y, a.z + b.z⟩

/-- THREE r85 `Vector3.distanceToSquared`: dx*dx + dy*dy + dz*dz. -/
def distanceToSquared [Sub α] [Mul α] [Add α] (a b : GVec3 α) : α :=
  (a.x - b.x) * (a.x - b.x) + (a.y - b.y) * (a.y - b.y) + (a.z - b.z) * (a.z - b.z)

/-- `THREE.Math.degToRad`: degrees * DEG2RAD, DEG2RAD = Math.PI / 180. -/
def degToRad (M : MathLib) (degrees : ℚ) : ℚ := degrees * (M.pi / 180)

/-- THREE r85 `Vector2.angle`: atan2(y, x), shifted by 2*PI if negative. -/
def vec2angle (M : MathLib) (v : Vec2) : ℚ :=
  let a := M.atan2 v.y v.x
  if a < 0 then a + 2 * M.pi else a

namespace VectorUtils

/-- Default epsilon of `VectorUtils.equals`. -/
def defaultEpsilon : ℚ := 1/100

/-- Non-null core of `VectorUtils.equals`:
`a.distanceToSquared(b) <= epsilon ? true : false`. -/
def equalsB (a b : Vec3) (epsilon : ℚ) : Bool :=
  decide (distanceToSquared a b ≤ epsilon)

/-- `VectorUtils.equals(a, b, epsilon = .01)`: throws when a parameter is null,
otherwise compares squared distance against epsilon. -/
def equals (a b : Option Vec3) (epsilon : ℚ) : Except String Bool :=
  match a, b with
  | some a, some b => .ok (equalsB a b epsilon)
  | _, _ => .error "Cannot determine equality: one or more parameters null."

/-- `VectorUtils.arrayEquals`: result defaults to false; when both arrays are
non-null it requires equal lengths and index-by-index `equals` with the default
epsilon; when both are null it returns true. Never throws (elements are
non-null vectors). -/
def arrayEquals (a b : Option (List Vec3)) : Bool :=
  match a, b with
  | some a, some b =>
    if a.length = b.length then
      (a.zip b).all (fun p => equalsB p.1 p.2 defaultEpsilon)
    else false
  | none, none => true
  | _, _ => false

/-- `VectorUtils.pointInPolygon`: returns false when either argument is null,
otherwise the even-odd ray-casting loop over XY components
(j starts at length - 1 and trails i). -/
def pointInPolygon (vectors : Option (List Vec3)) (point : Option Vec3) : Bool :=
  match vectors, point with
  | none, _ => false
  | _, none => false
  | some vs, some p =>
    let n := vs.length
    (List.range n).foldl
      (fun oddNodes i =>
        let j := if i = 0 then n - 1 else i - 1
        let vi := vs.getD i ⟨0, 0, 0⟩
        let vj := vs.getD j ⟨0, 0, 0⟩
        if ((vi.y < p.y ∧ vj.y ≥ p.y) ∨ (vj.y < p.y ∧ vi.y ≥ p.y)) ∧
            (vi.x < p.x ∨ vj.x ≤ p.x) then
          if vi.x + (p.y - vi.y) / (vj.y - vi.y) * (vj.x - vi.x) < p.x then
            !oddNodes
          else oddNodes
        else oddNodes)
      false

/-- `VectorUtils.getCentroid`: throws when the list is null or empty; otherwise
appends the first point, folds the shoelace multiplier over consecutive pairs
(accumulating area and x/y/z sums), and divides by 6 * area.
(For zero-area input the JavaScript divisions produce NaN/Infinity; over ℚ the
division-by-zero convention yields 0 instead.  No claim reads the value on a
degenerate input, only whether an error is signalled.) -/
def getCentroid (vectors : Option (List Vec3)) : Except String Vec3 :=
  match vectors with
  | none => .error "Cannot get centroid: vectors is null or empty."
  | some vs =>
    match vs with
    | [] => .error "Cannot get centroid: vectors is null or empty."
    | p :: rest =>
      let points := (p :: rest) ++ [p]
      let folded := (points.zip points.tail).foldl
        (fun (acc : ℚ × ℚ × ℚ × ℚ) pr =>
          let multiplier := pr.1.x * pr.2.y - pr.2.x * pr.1.y
          (acc.1 + multiplier,
           acc.2.1 + (pr.1.x + pr.2.x) * multiplier,
           acc.2.2.1 + (pr.1.y + pr.2.y) * multiplier,
           acc.2.2.2 + (pr.1.z + pr.2.z) * multiplier))
        ((0 : ℚ), (0 : ℚ), (0 : ℚ), (0 : ℚ))
      let area := folded.1 / 2
      .ok ⟨folded.2.1 / (6 * area), folded.2.2.1 / (6 * area), folded.2.2.2 / (6 * area)⟩

/-- THREE r85 `Vector3.distanceTo`: sqrt of the squared distance
(square root supplied by the math oracle). -/
def distanceTo (M : MathLib) (a b : Vec3) : ℚ := M.sqrt (distanceToSquared a b)

/-- `VectorUtils.isInline(a, b, c)`: throws when a parameter is null, otherwise
`|a.distanceTo(b) - (a.distanceTo(c) + c.distanceTo(b))| < .001`. -/
def isInline (M : MathLib) (a b c : Option Vec3) : Except String Bool :=
  match a, b, c with
  | some a, some b, some c =>
    .ok (decide (|distanceTo M a b - (distanceTo M a c + distanceTo M c b)| < 1/1000))
  | _, _, _ => .error "Cannot determine if inline: vector(s) is null."

end VectorUtils

/-- A JavaScript number restricted to the values arising on the
`rotatePointsFromPoint` code paths: NaN or a finite value (a rational).
Infinities never arise there (no division by zero is reachable). -/
inductive JNum where
  | nan : JNum
  | num : ℚ → JNum
deriving DecidableEq, Repr

namespace JNum

/-- JavaScript addition: NaN propagates. -/
def add : JNum → JNum → JNum
  | num a, num b => num (a + b)
  | _, _ => nan

/-- JavaScript subtraction: NaN propagates. -/
def sub : JNum → JNum → JNum
  | num a, num b => num (a - b)
  | _, _ => nan

/-- JavaScript multiplication: NaN propagates. -/
def mul : JNum → JNum → JNum
  | num a, num b => num (a * b)
  | _, _ => nan

/-- JavaScript negation: NaN propagates. -/
def neg : JNum → JNum
  | num a => num (-a)
  | nan => nan

/-- JavaScript division, for the divisors reachable here (never zero):
NaN propagates; division by zero (unreachable) is mapped to NaN. -/
def div : JNum → JNum → JNum
  | num a, num b => if b = 0 then nan else num (a / b)
  | _, _ => nan

instance : Add JNum := ⟨add⟩

instance : Sub JNum := ⟨sub⟩

instance : Mul JNum := ⟨mul⟩

instance : Neg JNum := ⟨neg⟩

instance : Div JNum := ⟨div⟩

instance (n : ℕ) : OfNat JNum n := ⟨num (OfNat.ofNat n)⟩

/-- `Number.isNaN`. -/
def isNan : JNum → Bool
  | nan => true
  | num _ => false

/-- JavaScript boolean coercion `!x` for a number: true exactly for 0 and NaN. -/
def falsy : JNum → Bool
  | nan => true
  | num a => decide (a = 0)

/-- JavaScript `<=` on numbers: false whenever either side is NaN. -/
def jle : JNum → JNum → Bool
  | num a, num b => decide (a ≤ b)
  | _, _ => false

end JNum

abbrev JVec3 := GVec3 JNum

/-- Math-library oracle for the NaN-aware embedding: `Math.cos`/`Math.sin`
map doubles to doubles (NaN allowed on either side). -/
structure MathLibJ where
  pi : ℚ
  cos : JNum → JNum
  sin : JNum → JNum

/-- A concrete (degenerate) NaN-aware oracle, used only to evaluate theorems
on concrete inputs. -/
def mathLibJZero : MathLibJ := ⟨0, fun _ => JNum.num 0, fun _ => JNum.num 0⟩

namespace JS

/-- `THREE.Math.degToRad` over JNum: degrees * DEG2RAD, DEG2RAD = Math.PI / 180
(a finite library constant). -/
def degToRad (M : MathLibJ) (degrees : JNum) : JNum := degrees * JNum.num (M.pi / 180)

/-- NaN-aware re-embedding of the non-null core of `VectorUtils.equals`:
squared distance compared with `<=` (false on NaN). -/
def equals (a b : JVec3) (epsilon : JNum) : Bool :=
  JNum.jle (distanceToSquared a b) epsilon

/-- `VectorUtils.isAllValuesNumbers`: no component is NaN. -/
def isAllValuesNumbers (v : JVec3) : Bool :=
  !(v.x.isNan || v.y.isNan || v.z.isNan)

/-- `VectorUtils.hasDistanceOrDirection`: all components are numbers and the
vector is not within the default epsilon of the zero vector. -/
def hasDistanceOrDirection (v : JVec3) : Bool :=
  isAllValuesNumbers v && !(equals v ⟨JNum.num 0, JNum.num 0, JNum.num 0⟩ (JNum.num (1/100)))

/-- THREE r85 `Matrix4.makeRotationAxis(axis, angle)` (Rodrigues form), with
cos/sin supplied by the oracle. -/
def makeRotationAxis (M : MathLibJ) (axis : JVec3) (angle : JNum) : Mat4 JNum :=
  let c := M.cos angle
  let s := M.sin angle
  let t := 1 - c
  let x := axis.x
  let y := axis.y
  let z := axis.z
  let tx := t * x
  let ty := t * y
  ⟨tx * x + c, tx * y - s * z, tx * z + s * y, 0,
   tx * y + s * z, ty * y + c, ty * z - s * x, 0,
   tx * z - s * y, ty * z + s * x, t * z * z + c, 0,
   0, 0, 0, 1⟩

/-- The per-point body of `rotatePointsFromPoint`:
`p.sub(pivot); p.applyMatrix4(makeRotationAxis(axis, angle)); p.add(pivot)`. -/
def rotateOne (M : MathLibJ) (degree : JNum) (pivot axis : JVec3) (p : JVec3) : JVec3 :=
  let angle := degToRad M degree
  vadd (applyMatrix4 (makeRotationAxis M axis angle) (vsub p pivot)) pivot

/-- `VectorUtils.rotatePointsFromPoint(degree, points, pointToRotateAround,
rotationAxis)`: the guard cascade of the source (note `if(!degree)` throws for
degree 0 and NaN), then the in-place rotation of every point about the pivot. -/
def rotatePointsFromPoint (M : MathLibJ) (degree : JNum) (points : Option (List JVec3))
    (pivot axis : Option JVec3) : Except String (List JVec3) :=
  if degree.falsy then
    .error "<< VectorUtils >> Failed to rotate from point, degree is zero or invalid"
  else
    match points with
    | none => .error "<< VectorUtils >> Failed to rotate from point, points is null or empty"
    | some ps =>
      if ps.isEmpty then
        .error "<< VectorUtils >> Failed to rotate from point, points is null or empty"
      else
        match pivot with
        | none => .error "<< VectorUtils >> Failed to rotate from point, pointToRotateAround is null or has invalid values"
        | some pv =>
          if isAllValuesNumbers pv then
            match axis with
            | none => .error "<< VectorUtils >> Failed to rotate from point, rotationAxis is null or has no direction"
            | some ax =>
              if hasDistanceOrDirection ax then
                .ok (ps.map (rotateOne M degree pv ax))
              else
                .error "<< VectorUtils >> Failed to rotate from point, rotationAxis is null or has no direction"
          else
            .error "<< VectorUtils >> Failed to rotate from point, pointToRotateAround is null or has invalid values"

end JS

/-- `Except.isOk`-style projection used by the error-handling claims. -/
def isOkE : Except ε α → Bool
  | .ok _ => true
  | .error _ => false

namespace ShapeFactory

/-- The per-vertex miter computation of `ShapeFactory.offsetContour`: the
offset buffer `[-padding, 0, 0]` pushed through the shift, rotation and
translation matrices built from the two adjacent edge directions
(indices wrap around the contour). -/
def offsetPoint (M : MathLib) (padding : ℚ) (contour : List Vec2) (i : ℕ) : Vec2 :=
  let n := contour.length
  let ci := contour.getD i ⟨0, 0⟩
  let cprev := contour.getD (if i = 0 then n - 1 else i - 1) ⟨0, 0⟩
  let cnext := contour.getD (if i + 1 = n then 0 else i + 1) ⟨0, 0⟩
  let v1 : Vec2 := ⟨cprev.x - ci.x, cprev.y - ci.y⟩
  let v2 : Vec2 := ⟨cnext.x - ci.x, cnext.y - ci.y⟩
  let angle := vec2angle M v2 - vec2angle M v1
  let halfAngle := angle * (1/2)
  let tA := vec2angle M v2 + M.pi * (1/2)
  let shift := M.tan (halfAngle - M.pi * (1/2))
  let shiftMatrix : Mat4 ℚ :=
    ⟨1, 0, 0, 0,
     -shift, 1, 0, 0,
     0, 0, 1, 0,
     0, 0, 0, 1⟩
  let rotationMatrix : Mat4 ℚ :=
    ⟨M.cos tA, -(M.sin tA), 0, 0,
     M.sin tA, M.cos tA, 0, 0,
     0, 0, 1, 0,
     0, 0, 0, 1⟩
  let translationMatrix : Mat4 ℚ :=
    ⟨1, 0, 0, ci.x,
     0, 1, 0, ci.y,
     0, 0, 1, 0,
     0, 0, 0, 1⟩
  let o0 : Vec3 := ⟨-padding, 0, 0⟩
  let o3 := applyMatrix4 translationMatrix (applyMatrix4 rotationMatrix (applyMatrix4 shiftMatrix o0))
  ⟨o3.x, o3.y⟩

/-- `ShapeFactory.offsetContour(padding, contour)`: one offset point per
contour point, then `result.push(result[0].clone())`.  On an empty contour the
source dereferences the missing `result[0]` and fails with a TypeError, which
is the only error case (there is no minimum-length validation). -/
def offsetContour (M : MathLib) (padding : ℚ) (contour : List Vec2) : Except String (List Vec2) :=
  let pts := (List.range contour.length).map (offsetPoint M padding contour)
  match pts with
  | [] => .error "TypeError: result at index 0 is undefined"
  | p :: rest => .ok ((p :: rest) ++ [p])

end ShapeFactory

/-- THREE.Face3: the three vertex indices of a face (normals omitted,
see the header). -/
structure Face3 where
  a : ℕ
  b : ℕ
  c : ℕ
deriving DecidableEq, Repr

/-- One entry of `faceVertexUvs[0]`: the three UV corners of a face. -/
abbrev UvTriple := Vec2 × Vec2 × Vec2

/-- THREE r85 `Geometry`, restricted to the data the claims observe:
vertex positions, face index triples, and the first face-vertex UV set.
(Face and vertex normals are derived data recomputed from these, and UV
corner objects are modelled by value: the embedded code never stores one
Vector2 object in two UV slots.) -/
structure Geometry where
  vertices : List Vec3
  faces : List Face3
  faceVertexUvs : List UvTriple
deriving DecidableEq, Repr

/-- THREE r85 `Matrix4.makeRotationZ`. -/
def makeRotationZ (M : MathLib) (theta : ℚ) : Mat4 ℚ :=
  ⟨M.cos theta, -(M.sin theta), 0, 0,
   M.sin theta, M.cos theta, 0, 0,
   0, 0, 1, 0,
   0, 0, 0, 1⟩

/-- THREE r85 `Geometry.applyMatrix`: every vertex gets `applyMatrix4`
(the normal recomputation is not carried, see `Geometry`). -/
def applyMatrixGeo (m : Mat4 ℚ) (g : Geometry) : Geometry :=
  Geometry.mk (g.vertices.map (applyMatrix4 m)) g.faces g.faceVertexUvs

namespace UvUtils

/-- The copy-back loop of `setUvRotationOnGeometry`: for face `i`, read the
three (rotated) clone vertices indexed by the face and overwrite UV triple `i`
with their (x, y).  A missing vertex or UV entry is an `undefined` access that
throws in the source. -/
def setUvLoop (verts : List Vec3) : List Face3 → ℕ → List UvTriple → Except String (List UvTriple)
  | [], _, uvs => .ok uvs
  | f :: fs, i, uvs =>
    match verts.get? f.a, verts.get? f.b, verts.get? f.c, uvs.get? i with
    | some v1, some v2, some v3, some _ =>
      setUvLoop verts fs (i + 1)
        (uvs.set i (⟨v1.x, v1.y⟩, ⟨v2.x, v2.y⟩, ⟨v3.x, v3.y⟩))
    | _, _, _, _ => .error "TypeError: undefined face or UV data"

/-- `UvUtils.setUvRotationOnGeometry(degree, geo)`: clone the geometry, rotate
the clone by `makeRotationZ(-radians)`, then copy each clone face vertex (x, y)
back as the corresponding UV corner of the original geometry.  (The source
also throws when `degree` is NaN; over ℚ that guard can never fire and is
omitted.) -/
def setUvRotationOnGeometry (M : MathLib) (degree : ℚ) (geo : Option Geometry) :
    Except String Geometry :=
  match geo with
  | none => .error "<< UvUtils >> Failed to set UV rotation on geometry, geometry is invalid"
  | some g =>
    let radians := degToRad M degree
    let cloneGeo := applyMatrixGeo (makeRotationZ M (-radians)) g
    match setUvLoop cloneGeo.vertices cloneGeo.faces 0 g.faceVertexUvs with
    | .ok uvs => .ok (Geometry.mk g.vertices g.faces uvs)
    | .error e => .error e

/-- The 2D rotation matrix for angle `theta` applied to a point:
`(cos theta * x - sin theta * y, sin theta * x + cos theta * y)`. -/
def rotate2d (M : MathLib) (theta : ℚ) (p : Vec2) : Vec2 :=
  ⟨M.cos theta * p.x - M.sin theta * p.y, M.sin theta * p.x + M.cos theta * p.y⟩

/-- Direct 2D-rotation embedding of UV rotation, following the words of the
claim rather than the source: for every face, set its three UV corners to the
2D rotation matrix (for the same angle `-radians` the source rotates by)
applied directly to that face vertex's (x, y) coordinates, with no geometry
clone. -/
def uvRotationDirect (M : MathLib) (degree : ℚ) (g : Geometry) : Geometry :=
  let theta := -(degToRad M degree)
  let corner := fun (idx : ℕ) =>
    let v := g.vertices.getD idx ⟨0, 0, 0⟩
    rotate2d M theta ⟨v.x, v.y⟩
  Geometry.mk g.vertices g.faces
    (g.faces.map (fun f => (corner f.a, corner f.b, corner f.c)))

/-- The UV triple the copy-back loop writes for a face: the (x, y) pairs of
the three vertices the face references. -/
def cornerTriple (verts : List Vec3) (f : Face3) : UvTriple :=
  (⟨(verts.getD f.a ⟨0, 0, 0⟩).x, (verts.getD f.a ⟨0, 0, 0⟩).y⟩,
   ⟨(verts.getD f.b ⟨0, 0, 0⟩).x, (verts.getD f.b ⟨0, 0, 0⟩).y⟩,
   ⟨(verts.getD f.c ⟨0, 0, 0⟩).x, (verts.getD f.c ⟨0, 0, 0⟩).y⟩)

/-- `UvUtils.flipFaceNormalOnGeo`: swap each face's first and third vertex
index, recompute normals (derived data, not carried), and swap each face's
first and third UV corner. -/
def flipFaceNormalOnGeo (g : Geometry) : Geometry :=
  Geometry.mk g.vertices
    (g.faces.map (fun f => Face3.mk f.c f.b f.a))
    (g.faceVertexUvs.map (fun t => (t.2.2, t.2.1, t.1)))

end UvUtils

/-- The closed set of `Colors` singleton instances declared in Colors.ts
(instance identity is constructor identity). -/
inductive Colors where
  | ABSOLUTE_BLACK
  | BLACK
  | PITCH_BLACK
  | BLUE
  | DARK_BLUE
  | AQUA_BLUE
  | AQUA_BLUE_LIGHT
  | LIGHT_BLUE
  | BROWN
  | LIGHT_BROWN
  | DARK_BROWN
  | DEEP_BROWN
  | TAN
  | LIGHT_TAN
  | GREY
  | DARK_GREY
  | LIGHT_GREY
  | GREEN
  | GREEN_DARK
  | MENARDS_GREEN
  | MENARDS_GREEN_LIGHT
  | MENARDS_YELLOW
  | DARK_YELLOW
  | RED
  | LIGHT_RED
  | WHITE
  | PURE_WHITE
deriving DecidableEq, Repr, Fintype

namespace Colors

/-- `Colors.value()`: the hex value each constant is constructed with. -/
def value : Colors → ℕ
  | ABSOLUTE_BLACK => 0x000000
  | BLACK => 0x021919
  | PITCH_BLACK => 0x000000
  | BLUE => 0x2D8BF6
  | DARK_BLUE => 0x0B477A
  | AQUA_BLUE => 0x00A6FF
  | AQUA_BLUE_LIGHT => 0x7EB3F7
  | LIGHT_BLUE => 0x8EC0F8
  | BROWN => 0xAE4902
  | LIGHT_BROWN => 0xCD853F
  | DARK_BROWN => 0x7D591D
  | DEEP_BROWN => 0x422605
  | TAN => 0xD0AE57
  | LIGHT_TAN => 0xE3CE9A
  | GREY => 0x999999
  | DARK_GREY => 0x505557
  | LIGHT_GREY => 0xEDEDED
  | GREEN => 0x70F62F
  | GREEN_DARK => 0x00be00
  | MENARDS_GREEN => 0x009a3d
  | MENARDS_GREEN_LIGHT => 0x35C45F
  | MENARDS_YELLOW => 0xf7cd09
  | DARK_YELLOW => 0xAA9120
  | RED => 0xFF0000
  | LIGHT_RED => 0xFF3333
  | WHITE => 0xF5F4F2
  | PURE_WHITE => 0xFFFFFF

/-- The static-initializer order of Colors.ts: each constructor call runs
`Colors.values.set(_value, this)` in this declaration order. -/
def declOrder : List Colors :=
  [ABSOLUTE_BLACK, BLACK, PITCH_BLACK, BLUE, DARK_BLUE, AQUA_BLUE, AQUA_BLUE_LIGHT,
   LIGHT_BLUE, BROWN, LIGHT_BROWN, DARK_BROWN, DEEP_BROWN, TAN, LIGHT_TAN, GREY,
   DARK_GREY, LIGHT_GREY, GREEN, GREEN_DARK, MENARDS_GREEN, MENARDS_GREEN_LIGHT,
   MENARDS_YELLOW, DARK_YELLOW, RED, LIGHT_RED, WHITE, PURE_WHITE]

/-- The `Colors.values` map after all static initializers ran, as an
association list: each `Colors.values.set(_value, this)` pushes its entry in
front of the previous ones, so a lookup finds the latest registration for a
value — exactly the overwrite semantics of `Map.set`. -/
def valuesList : List (ℕ × Colors) :=
  declOrder.foldl (fun acc c => (value c, c) :: acc) []

/-- `Colors.fromValue(value)`: map lookup, `null` when the value was never
registered. -/
def fromValue (v : ℕ) : Option Colors := valuesList.lookup v

end Colors

/-- Unfolding lemma for JavaScript subtraction on finite numbers. -/
theorem JNum.num_sub (a b : ℚ) : JNum.num a - JNum.num b = JNum.num (a - b) := rfl

/-- Unfolding lemma for JavaScript addition on finite numbers. -/
theorem JNum.num_add (a b : ℚ) : JNum.num a + JNum.num b = JNum.num (a + b) := rfl

/-- Unfolding lemma for JavaScript multiplication on finite numbers. -/
theorem JNum.num_mul (a b : ℚ) : JNum.num a * JNum.num b = JNum.num (a * b) := rfl

/-- Unfolding lemma for JavaScript comparison on finite numbers. -/
theorem JNum.jle_num (a b : ℚ) : JNum.jle (JNum.num a) (JNum.num b) = decide (a ≤ b) := rfl

/-- A finite JavaScript number is not NaN. -/
theorem JNum.isNan_num (a : ℚ) : (JNum.num a).isNan = false := rfl

/-- C1 counterexample: with the default epsilon 0.01, `equals` accepts the pair
(0,0,0) and (0.05,0,0), whose squared distance 1/400 exceeds
epsilon squared = 1/10000 — so "true exactly when squared distance is at most
epsilon squared" is false at this input. -/
theorem C1_counterexample :
    VectorUtils.equals (some ⟨0, 0, 0⟩) (some ⟨1/20, 0, 0⟩) (1/100) = .ok true ∧
    ¬ distanceToSquared (⟨0, 0, 0⟩ : Vec3) ⟨1/20, 0, 0⟩ ≤ (1/100) * (1/100) := by
  constructor
  · show Except.ok (VectorUtils.equalsB ⟨0, 0, 0⟩ ⟨1/20, 0, 0⟩ (1/100)) = Except.ok true
    norm_num [VectorUtils.equalsB, distanceToSquared]
  · norm_num [distanceToSquared]

/-- C1 (amended): `equals(a, b, epsilon)` returns true exactly when the squared
distance between a and b is at most epsilon itself (not epsilon squared), and
`arrayEquals` requires equal lengths and that every index-aligned pair is
within squared distance 0.01 (the default epsilon). -/
theorem C1_equals_plain_epsilon_threshold :
    (∀ (a b : Vec3) (epsilon : ℚ),
        VectorUtils.equals (some a) (some b) epsilon =
          .ok (decide (distanceToSquared a b ≤ epsilon))) ∧
    (∀ xs ys : List Vec3,
        VectorUtils.arrayEquals (some xs) (some ys) = true ↔
          (xs.length = ys.length ∧
           ∀ p ∈ xs.zip ys, distanceToSquared p.1 p.2 ≤ 1/100)) := by
  constructor
  · intro a b epsilon
    rfl
  · intro xs ys
    by_cases h : xs.length = ys.length
    · simp [VectorUtils.arrayEquals, h, List.all_eq_true, VectorUtils.equalsB,
        VectorUtils.defaultEpsilon]
    · simp [VectorUtils.arrayEquals, h]

/-- C2: `pointInPolygon` returns false (instead of throwing) whenever the point
list or the point is null. -/
theorem C2_pointInPolygon_null_returns_false :
    (∀ p : Option Vec3, VectorUtils.pointInPolygon none p = false) ∧
    (∀ v : Option (List Vec3), VectorUtils.pointInPolygon v none = false) := by
  constructor
  · intro p
    cases p <;> rfl
  · intro v
    cases v <;> rfl

/-- C3 counterexample: a rotation of 0 degrees with a non-empty point list, a
NaN-free pivot and a unit-length axis fails (the `if(!degree)` guard throws on
degree 0), refuting "for a rotation of 0 degrees it succeeds". -/
theorem C3_counterexample :
    isOkE (JS.rotatePointsFromPoint mathLibJZero (JNum.num 0)
      (some [⟨JNum.num 1, JNum.num 0, JNum.num 0⟩])
      (some ⟨JNum.num 0, JNum.num 0, JNum.num 0⟩)
      (some ⟨JNum.num 0, JNum.num 0, JNum.num 1⟩)) = false := by
  rfl

/-- C3 (amended): `rotatePointsFromPoint` fails exactly when the degree is zero
or NaN, the points list is null or empty, the pivot is null or has a NaN
component, or the axis is null, has a NaN component, or is within the default
epsilon of zero length (squared length at most 0.01); in every other case it
succeeds and maps each point through translate-to-pivot, rotate about the
axis, translate back. -/
theorem C3_rotate_error_characterization :
    (∀ (M : MathLibJ) (d : JNum) (ps : List JVec3) (pivot axis : JVec3),
        isOkE (JS.rotatePointsFromPoint M d (some ps) (some pivot) (some axis)) = true ↔
          (d.falsy = false ∧ ps ≠ [] ∧ JS.isAllValuesNumbers pivot = true ∧
           JS.hasDistanceOrDirection axis = true)) ∧
    (∀ (M : MathLibJ) (d : JNum) (pv ax : Option JVec3),
        isOkE (JS.rotatePointsFromPoint M d none pv ax) = false) ∧
    (∀ (M : MathLibJ) (d : JNum) (ps : List JVec3) (ax : Option JVec3),
        isOkE (JS.rotatePointsFromPoint M d (some ps) none ax) = false) ∧
    (∀ (M : MathLibJ) (d : JNum) (ps : List JVec3) (pv : JVec3),
        isOkE (JS.rotatePointsFromPoint M d (some ps) (some pv) none) = false) ∧
    (∀ (M : MathLibJ) (d : JNum) (ps : List JVec3) (pivot axis : JVec3),
        d.falsy = false → ps ≠ [] → JS.isAllValuesNumbers pivot = true →
        JS.hasDistanceOrDirection axis = true →
        JS.rotatePointsFromPoint M d (some ps) (some pivot) (some axis) =
          .ok (ps.map (JS.rotateOne M d pivot axis))) := by
  refine ⟨?_, ?_, ?_, ?_, ?_⟩
  · intro M d ps pivot axis
    by_cases hd : d.falsy
    · simp [JS.rotatePointsFromPoint, hd, isOkE]
    · by_cases hps : ps.isEmpty
      · simp only [List.isEmpty_iff] at hps
        simp [JS.rotatePointsFromPoint, hd, hps, isOkE]
      · have hps' : ps ≠ [] := by
          simpa [List.isEmpty_iff] using hps
        by_cases hpv : JS.isAllValuesNumbers pivot
        · by_cases hax : JS.hasDistanceOrDirection axis
          · simp [JS.rotatePointsFromPoint, hd, hps, hpv, hax, isOkE, hps']
          · simp [JS.rotatePointsFromPoint, hd, hps, hpv, hax, isOkE]
        · simp [JS.rotatePointsFromPoint, hd, hps, hpv, isOkE]
  · intro M d pv ax
    by_cases hd : d.falsy <;> simp [JS.rotatePointsFromPoint, hd, isOkE]
  · intro M d ps ax
    by_cases hd : d.falsy
    · simp [JS.rotatePointsFromPoint, hd, isOkE]
    · by_cases hps : ps.isEmpty <;> simp [JS.rotatePointsFromPoint, hd, hps, isOkE]
  · intro M d ps pv
    by_cases hd : d.falsy
    · simp [JS.rotatePointsFromPoint, hd, isOkE]
    · by_cases hps : ps.isEmpty
      · simp [JS.rotatePointsFromPoint, hd, hps, isOkE]
      · by_cases hpv : JS.isAllValuesNumbers pv <;>
          simp [JS.rotatePointsFromPoint, hd, hps, hpv, isOkE]
  · intro M d ps pivot axis hd hps hpv hax
    simp [JS.rotatePointsFromPoint, hd, hpv, hax, List.isEmpty_iff, hps]

/-- C3 witness: a 90-degree rotation of one point about the origin with the Z
axis satisfies every precondition and succeeds with the mapped rotation. -/
theorem C3_rotate_error_characterization_witness :
    JS.rotatePointsFromPoint mathLibJZero (JNum.num 90)
      (some [⟨JNum.num 1, JNum.num 0, JNum.num 0⟩])
      (some ⟨JNum.num 0, JNum.num 0, JNum.num 0⟩)
      (some ⟨JNum.num 0, JNum.num 0, JNum.num 1⟩) =
      .ok ([⟨JNum.num 1, JNum.num 0, JNum.num 0⟩].map
        (JS.rotateOne mathLibJZero (JNum.num 90)
          ⟨JNum.num 0, JNum.num 0, JNum.num 0⟩ ⟨JNum.num 0, JNum.num 0, JNum.num 1⟩)) :=
  C3_rotate_error_characterization.2.2.2.2 mathLibJZero (JNum.num 90) _ _ _
    (by norm_num [JNum.falsy]) (by simp) (by rfl)
    (by norm_num [JS.hasDistanceOrDirection, JS.isAllValuesNumbers, JS.equals,
      distanceToSquared, JNum.num_sub, JNum.num_add, JNum.num_mul, JNum.jle_num,
      JNum.isNan_num])

/-- C4 counterexample: `getCentroid` on a 2-point sequence (below the claimed
minimum of 3) does not signal an error — it silently returns a result. -/
theorem C4_counterexample :
    isOkE (VectorUtils.getCentroid (some [⟨0, 0, 0⟩, ⟨1, 1, 0⟩])) = true := by
  rfl

/-- C4 (amended): `getCentroid` signals an error exactly when the list is null
or empty (minimum length 1, not 3), and `offsetContour` signals an error
exactly when the contour is empty (the missing-first-element TypeError) — so
1- and 2-point sequences are accepted silently by both. -/
theorem C4_min_length_not_enforced :
    (∀ vs : List Vec3, isOkE (VectorUtils.getCentroid (some vs)) = true ↔ vs ≠ []) ∧
    isOkE (VectorUtils.getCentroid (none : Option (List Vec3))) = false ∧
    (∀ (M : MathLib) (padding : ℚ) (contour : List Vec2),
        isOkE (ShapeFactory.offsetContour M padding contour) = true ↔ contour ≠ []) := by
  refine ⟨?_, rfl, ?_⟩
  · intro vs
    cases vs <;> simp [VectorUtils.getCentroid, isOkE]
  · intro M padding contour
    cases contour with
    | nil => simp [ShapeFactory.offsetContour, isOkE]
    | cons p rest =>
      simp [ShapeFactory.offsetContour, List.range_succ_eq_map, isOkE]

/-- C6: the centroid of the unit square [(0,0,0),(1,0,0),(1,1,0),(0,1,0)] is
exactly (1/2, 1/2, 0) under the shoelace accumulation of the source. -/
theorem C6_centroid_unit_square :
    VectorUtils.getCentroid (some [⟨0, 0, 0⟩, ⟨1, 0, 0⟩, ⟨1, 1, 0⟩, ⟨0, 1, 0⟩]) =
      .ok ⟨1/2, 1/2, 0⟩ := by
  simp only [VectorUtils.getCentroid, List.cons_append, List.nil_append, List.tail_cons,
    List.zip_cons_cons, List.zip_nil_right, List.foldl_cons, List.foldl_nil]
  norm_num

/-- C10: every Colors constant other than ABSOLUTE_BLACK round-trips through
`fromValue`; `fromValue 0x000000` is PITCH_BLACK (the later registration
overwrote ABSOLUTE_BLACK), so ABSOLUTE_BLACK does not round-trip; and any
value never registered yields null. -/
theorem C10_colors_registry_round_trip :
    (∀ c : Colors, c ≠ Colors.ABSOLUTE_BLACK → Colors.fromValue (Colors.value c) = some c) ∧
    Colors.fromValue (Colors.value Colors.ABSOLUTE_BLACK) = some Colors.PITCH_BLACK ∧
    Colors.fromValue (Colors.value Colors.ABSOLUTE_BLACK) ≠ some Colors.ABSOLUTE_BLACK ∧
    (∀ v : ℕ, (∀ c : Colors, Colors.value c ≠ v) → Colors.fromValue v = none) := by
  refine ⟨by decide, by decide, by decide, ?_⟩
  intro v hv
  have key : ∀ l : List (ℕ × Colors), (∀ p ∈ l, ∃ c, p.1 = Colors.value c) →
      l.lookup v = none := by
    intro l
    induction l with
    | nil =>
      intro _
      rfl
    | cons p ps ih =>
      intro h
      obtain ⟨k, c0⟩ := p
      obtain ⟨c, hc⟩ := h (k, c0) (List.mem_cons_self _ _)
      simp only at hc
      have hne : (v == k) = false := by
        subst hc
        exact beq_eq_false_iff_ne.mpr fun heq => hv c heq.symm
      simp only [List.lookup, hne]
      exact ih fun q hq => h q (List.mem_cons_of_mem _ hq)
  exact key Colors.valuesList (by decide)

/-- C10 witness: BLUE round-trips and the unregistered value 1 yields null. -/
theorem C10_colors_registry_round_trip_witness :
    Colors.fromValue (Colors.value Colors.BLUE) = some Colors.BLUE ∧
    Colors.fromValue 1 = none :=
  ⟨C10_colors_registry_round_trip.1 Colors.BLUE (by decide),
   C10_colors_registry_round_trip.2.2.2 1 (by decide)⟩

/-- C7: `isInline(a, b, c)` is true exactly when
`|dist(a,b) - (dist(a,c) + dist(c,b))| < 0.001`, and (under the IEEE guarantee
that the square root of 0 is 0) a point equal to either endpoint satisfies the
formula, so endpoints are not excluded. -/
theorem C7_isInline_formula_and_endpoints :
    ∀ (M : MathLib) (a b c : Vec3), M.sqrt 0 = 0 →
      VectorUtils.isInline M (some a) (some b) (some c) =
        .ok (decide (|VectorUtils.distanceTo M a b -
          (VectorUtils.distanceTo M a c + VectorUtils.distanceTo M c b)| < 1/1000)) ∧
      VectorUtils.isInline M (some a) (some b) (some a) = .ok true ∧
      VectorUtils.isInline M (some a) (some b) (some b) = .ok true := by
  intro M a b c h
  have h0 : ∀ v : Vec3, distanceToSquared v v = 0 := by
    intro v
    simp [distanceToSquared]
  refine ⟨rfl, ?_, ?_⟩
  · norm_num [VectorUtils.isInline, VectorUtils.distanceTo, h0, h]
  · norm_num [VectorUtils.isInline, VectorUtils.distanceTo, h0, h]

/-- C7 witness: with a concrete oracle whose sqrt fixes 0, the endpoint case
evaluates to true. -/
theorem C7_isInline_formula_and_endpoints_witness :
    VectorUtils.isInline mathLibZero (some ⟨0, 0, 0⟩) (some ⟨3, 0, 0⟩) (some ⟨0, 0, 0⟩) =
      .ok true :=
  (C7_isInline_formula_and_endpoints mathLibZero ⟨0, 0, 0⟩ ⟨3, 0, 0⟩ ⟨0, 0, 0⟩ rfl).2.1

/-- C8: flipping the face normals twice restores the face index triples (in
order and value) and the face-vertex UVs. -/
theorem C8_flipFaceNormals_involution :
    ∀ g : Geometry,
      (UvUtils.flipFaceNormalOnGeo (UvUtils.flipFaceNormalOnGeo g)).faces = g.faces ∧
      (UvUtils.flipFaceNormalOnGeo (UvUtils.flipFaceNormalOnGeo g)).faceVertexUvs =
        g.faceVertexUvs := by
  intro g
  have hface : ∀ l : List Face3,
      (l.map (fun f => Face3.mk f.c f.b f.a)).map (fun f => Face3.mk f.c f.b f.a) = l := by
    intro l
    induction l with
    | nil => rfl
    | cons f fs ih =>
      cases f
      simp [ih]
  have huv : ∀ l : List UvTriple,
      (l.map (fun t => (t.2.2, t.2.1, t.1))).map (fun t => (t.2.2, t.2.1, t.1)) = l := by
    intro l
    induction l with
    | nil => rfl
    | cons t ts ih =>
      simp [ih]
  exact ⟨hface g.faces, huv g.faceVertexUvs⟩

/-- C9: on a contour of at least 3 points, `offsetContour` succeeds with
exactly `contour.length + 1` points whose last element equals the first. -/
theorem C9_offsetContour_length_closed :
    ∀ (M : MathLib) (padding : ℚ) (contour : List Vec2), 3 ≤ contour.length →
      ∃ l, ShapeFactory.offsetContour M padding contour = .ok l ∧
        l.length = contour.length + 1 ∧ l.getLast? = l.head? := by
  intro M padding contour h
  obtain ⟨n, hn⟩ : ∃ n, contour.length = n + 1 := ⟨contour.length - 1, by omega⟩
  simp only [ShapeFactory.offsetContour, hn, List.range_succ_eq_map, List.map_cons]
  refine ⟨_, rfl, ?_, ?_⟩
  · simp
  · rw [List.getLast?_concat]
    simp

/-- C9 witness: the 10x10 square offsets to a 5-point closed polyline. -/
theorem C9_offsetContour_length_closed_witness :
    ∃ l, ShapeFactory.offsetContour mathLibZero 1 [⟨0, 0⟩, ⟨0, 10⟩, ⟨10, 10⟩, ⟨10, 0⟩] = .ok l ∧
      l.length = 5 ∧ l.getLast? = l.head? :=
  C9_offsetContour_length_closed mathLibZero 1 _ (by decide)

/-- Setting an element at the boundary of the taken prefix leaves the prefix
unchanged. -/
theorem take_set_same {α : Type} : ∀ (l : List α) (i : ℕ) (t : α),
    (l.set i t).take i = l.take i := by
  intro l
  induction l with
  | nil =>
    intro i t
    simp
  | cons x xs ih =>
    intro i t
    cases i with
    | zero => rfl
    | succ j =>
      show x :: (xs.set j t).take j = x :: xs.take j
      rw [ih]

/-- Taking one element past a set index captures the new element. -/
theorem take_set_succ {α : Type} : ∀ (l : List α) (i : ℕ) (t : α), i < l.length →
    (l.set i t).take (i + 1) = l.take i ++ [t] := by
  intro l
  induction l with
  | nil =>
    intro i t h
    simp at h
  | cons x xs ih =>
    intro i t h
    cases i with
    | zero => rfl
    | succ j =>
      have h' : j < xs.length := by simpa using h
      show x :: (xs.set j t).take (j + 1) = x :: (xs.take j ++ [t])
      rw [ih j t h']

/-- The copy-back loop, run from index `i` over faces whose vertex indices are
in bounds and with one UV triple available per remaining face, leaves the
first `i` UV triples alone and replaces the rest with the faces' vertex
(x, y) triples. -/
theorem setUvLoop_eq (verts : List Vec3) :
    ∀ (faces : List Face3) (i : ℕ) (uvs : List UvTriple),
      (∀ f ∈ faces, f.a < verts.length ∧ f.b < verts.length ∧ f.c < verts.length) →
      uvs.length = i + faces.length →
      UvUtils.setUvLoop verts faces i uvs =
        .ok (uvs.take i ++ faces.map (UvUtils.cornerTriple verts)) := by
  intro faces
  induction faces with
  | nil =>
    intro i uvs _ hlen
    simp only [UvUtils.setUvLoop, List.map_nil, List.append_nil]
    have hle : uvs.length ≤ i := by
      simpa using le_of_eq hlen
    rw [List.take_of_length_le hle]
  | cons f fs ih =>
    intro i uvs hwf hlen
    obtain ⟨ha, hb, hc⟩ := hwf f (List.mem_cons_self _ _)
    have hi : i < uvs.length := by
      simp only [List.length_cons] at hlen
      omega
    simp only [UvUtils.setUvLoop, List.get?_eq_get ha, List.get?_eq_get hb,
      List.get?_eq_get hc, List.get?_eq_get hi]
    rw [ih (i + 1) _ (fun g hg => hwf g (List.mem_cons_of_mem _ hg))
      (by simp only [List.length_set, List.length_cons] at *; omega)]
    rw [take_set_succ uvs i _ hi, List.append_assoc, List.singleton_append,
      List.map_cons]
    congr 2
    simp only [UvUtils.cornerTriple, List.getD_eq_getElem _ _ ha,
      List.getD_eq_getElem _ _ hb, List.getD_eq_getElem _ _ hc, List.get_eq_getElem]

/-- The xy-projection of a vertex pushed through `makeRotationZ` is exactly the
2D rotation matrix applied to the vertex's (x, y). -/
theorem applyRotZ_xy (M : MathLib) (theta : ℚ) (v : Vec3) :
    (⟨(applyMatrix4 (makeRotationZ M theta) v).x,
      (applyMatrix4 (makeRotationZ M theta) v).y⟩ : Vec2) =
      UvUtils.rotate2d M theta ⟨v.x, v.y⟩ := by
  simp only [applyMatrix4, makeRotationZ, UvUtils.rotate2d, GVec2.mk.injEq]
  constructor <;> ring

/-- C5: on a geometry whose faces index in-bounds vertices and which carries
one UV triple per face, the clone-rotate-copy-back embedding of UV rotation
produces exactly the geometry of the direct 2D-rotation embedding. -/
theorem C5_uv_rotation_direct_equivalence :
    ∀ (M : MathLib) (degree : ℚ) (g : Geometry),
      (∀ f ∈ g.faces, f.a < g.vertices.length ∧ f.b < g.vertices.length ∧
        f.c < g.vertices.length) →
      g.faceVertexUvs.length = g.faces.length →
      UvUtils.setUvRotationOnGeometry M degree (some g) =
        .ok (UvUtils.uvRotationDirect M degree g) := by
  intro M degree g hwf hlen
  simp only [UvUtils.setUvRotationOnGeometry]
  have hclv : (applyMatrixGeo (makeRotationZ M (-degToRad M degree)) g).vertices =
      g.vertices.map (applyMatrix4 (makeRotationZ M (-degToRad M degree))) := rfl
  have hclf : (applyMatrixGeo (makeRotationZ M (-degToRad M degree)) g).faces = g.faces := rfl
  rw [hclv, hclf, setUvLoop_eq _ g.faces 0 g.faceVertexUvs
    (fun f hf => by
      obtain ⟨ha, hb, hc⟩ := hwf f hf
      simpa using ⟨ha, hb, hc⟩)
    (by simpa using hlen)]
  simp only [List.take_zero, List.nil_append, UvUtils.uvRotationDirect]
  congr 1
  congr 1
  apply List.map_congr_left
  intro f hf
  obtain ⟨ha, hb, hc⟩ := hwf f hf
  have key : ∀ (idx : ℕ) (h : idx < g.vertices.length),
      ((g.vertices.map (applyMatrix4 (makeRotationZ M (-degToRad M degree)))).getD idx
        ⟨0, 0, 0⟩) =
      applyMatrix4 (makeRotationZ M (-degToRad M degree)) (g.vertices.getD idx ⟨0, 0, 0⟩) := by
    intro idx h
    rw [List.getD_eq_getElem _ _ (by simpa using h), List.getD_eq_getElem _ _ h,
      List.getElem_map]
  simp only [UvUtils.cornerTriple, key f.a ha, key f.b hb, key f.c hc]
  rw [Prod.mk.injEq, Prod.mk.injEq]
  exact ⟨applyRotZ_xy M _ _, applyRotZ_xy M _ _, applyRotZ_xy M _ _⟩

/-- C5 witness: a concrete one-face triangle under a concrete oracle gives the
same geometry through both embeddings. -/
theorem C5_uv_rotation_direct_equivalence_witness :
    UvUtils.setUvRotationOnGeometry mathLibZero 90
      (some (Geometry.mk [⟨1, 0, 0⟩, ⟨0, 1, 0⟩, ⟨0, 0, 0⟩] [⟨0, 1, 2⟩]
        [(⟨0, 0⟩, ⟨0, 0⟩, ⟨0, 0⟩)])) =
      .ok (UvUtils.uvRotationDirect mathLibZero 90
        (Geometry.mk [⟨1, 0, 0⟩, ⟨0, 1, 0⟩, ⟨0, 0, 0⟩] [⟨0, 1, 2⟩]
          [(⟨0, 0⟩, ⟨0, 0⟩, ⟨0, 0⟩)])) :=
  C5_uv_rotation_direct_equivalence mathLibZero 90 _ (by decide) (by decide)
